import Mathlib

/-!
Verification of the DiscBot repository: a shallow embedding of the per-guild
music player in `src/music.py` (queue, history, repeat modes, playback-loop
phases, panel rendering, Spotify catalog expansion) and of the dice roller in
`src/diceroller.py`, together with theorems settling the frozen claims.

Modelling conventions:
- `datetime`/`time.monotonic` values are integers (seconds); `now` is passed
  explicitly wherever the code reads the clock.
- Python truthiness is translated explicitly (e.g. `not self.current.duration`
  is falsy for `None` and for `0`).
- External collaborators (discord voice client, yt-dlp, Spotify API) appear as
  explicit state fields or function parameters.
- The source file stores its emoji/box-drawing literals in a double-encoded
  (mojibake) form; the string constants below reproduce the exact characters
  of the source via escape sequences.
-/

namespace DiscBot

/-- The `Track` dataclass of `src/music.py` (field defaults as in the source;
`requested_by` is modelled as an opaque user id). -/
structure Track where
  seq : Option Nat := none
  title : String := ""
  stream_url : String := ""
  webpage_url : String := ""
  duration : Option Int := none
  thumbnail : Option String := none
  requested_by : Option Nat := none
deriving Repr, DecidableEq

/-- Zero-padding to two digits, the `{n:02d}` format of the source. -/
def pad2 (n : Nat) : String :=
  if n < 10 then "0" ++ toString n else toString n

/-- `fmt_time` from `src/music.py`:
`None` or negative means "live", otherwise `h:mm:ss` or `m:ss`. -/
def fmt_time (seconds : Option Int) : String :=
  match seconds with
  | none => "live"
  | some sec =>
    if sec < 0 then "live"
    else
      let total := sec.toNat
      let m := total / 60
      let s := total % 60
      let h := m / 60
      let m2 := m % 60
      if h ≠ 0 then toString h ++ ":" ++ pad2 m2 ++ ":" ++ pad2 s
      else toString m2 ++ ":" ++ pad2 s

/-- Python truthiness of the optional `duration` field:
`None` and `0` are falsy. -/
def durTruthy : Option Int → Bool
  | none => false
  | some d => d ≠ 0

/-- `GuildPlayer.estimated_position`: `None` unless a start timestamp, a
current track and a truthy duration exist; otherwise `now - start`. -/
def estimated_position (start_time_utc : Option Int) (current : Option Track)
    (now : Int) : Option Int :=
  match start_time_utc, current with
  | some st, some c => if durTruthy c.duration then some (now - st) else none
  | _, _ => none

/-- The ratio computed inside `GuildPlayer._progress_bar`:
`min(max(pos / float(duration), 0.0), 1.0)`. -/
def progress_frac (pos : Int) (dur : Int) : ℚ :=
  min (max ((pos : ℚ) / (dur : ℚ)) 0) 1

/-- `int(ratio * width)` from `_progress_bar` (the ratio is nonnegative, so
Python's truncation is the floor). -/
def progress_filled (pos dur : Int) (width : Nat) : Nat :=
  (⌊progress_frac pos dur * (width : ℚ)⌋).toNat

/-- Python string repetition `s * n`. -/
def repeatStr (s : String) : Nat → String
  | 0 => ""
  | n + 1 => s ++ repeatStr s n

/-- The filled-cell literal of `_progress_bar` (exact source characters). -/
def BAR_FILLED : String := "‚ñ∞"

/-- The empty-cell literal of `_progress_bar` (exact source characters). -/
def BAR_EMPTY : String := "‚ñ±"

/-- `GuildPlayer._progress_bar` (default `width = 18`): `None` without a
current track or truthy duration; otherwise the bar plus
`fmt_time(pos)/fmt_time(duration)` where `pos = estimated_position() or 0`
(the raw, unclamped elapsed value). -/
def progress_bar (current : Option Track) (start_time_utc : Option Int)
    (now : Int) : Option String :=
  match current with
  | none => none
  | some c =>
    if durTruthy c.duration then
      let width : Nat := 18
      let dur : Int := c.duration.getD 0
      let pos : Int := (estimated_position start_time_utc current now).getD 0
      let filled : Nat := progress_filled pos dur width
      some (repeatStr BAR_FILLED filled ++ repeatStr BAR_EMPTY (width - filled)
            ++ " " ++ fmt_time (some pos) ++ "/" ++ fmt_time (some dur))
    else none

/-- Modelled from the spec: the progress bar as the spec describes it, with the
elapsed position itself clamped into `[0, duration]` before display
("elapsed = now - trackStartTimestamp, clamped into [0, duration]").
Used only to compare the spec's wording with the code's `progress_bar`. -/
def progress_bar_spec_clamped (current : Option Track) (start_time_utc : Option Int)
    (now : Int) : Option String :=
  match current with
  | none => none
  | some c =>
    if durTruthy c.duration then
      let width : Nat := 18
      let dur : Int := c.duration.getD 0
      let raw : Int := (estimated_position start_time_utc current now).getD 0
      let pos : Int := min (max raw 0) dur
      let filled : Nat := progress_filled pos dur width
      some (repeatStr BAR_FILLED filled ++ repeatStr BAR_EMPTY (width - filled)
            ++ " " ++ fmt_time (some pos) ++ "/" ++ fmt_time (some dur))
    else none

/-- Concrete track for the C2 scenario: duration 200 seconds. -/
def scenTrack : Track := { title := "A", stream_url := "s", webpage_url := "w",
                           duration := some 200 }

/-! ## Dice roller (`src/diceroller.py`) -/

/-- The whitespace class of the regex anchor `\s` (ASCII part). -/
def isPySpace (c : Char) : Bool :=
  c = ' ' ∨ c = '\t' ∨ c = '\n' ∨ c = '\x0d' ∨ c = '\x0b' ∨ c = '\x0c'

/-- Decimal value of a digit run. -/
def digitsToNat (ds : List Char) : Nat :=
  ds.foldl (fun acc c => 10 * acc + (c.toNat - '0'.toNat)) 0

/-- Greedy `\d+`: returns the parsed number and the rest, or `none` when no
digit is present. -/
def takeDigits (cs : List Char) : Option (Nat × List Char) :=
  let ds := cs.takeWhile Char.isDigit
  if ds.isEmpty then none
  else some (digitsToNat ds, cs.dropWhile Char.isDigit)

/-- The regex `DICE_RE = ^\s*(\d+)[dD](\d+)(?:\+(\d+))?\s*$` as a matcher:
returns `(X, Y, Z)` (with `Z = 0` when the `+Z` group is absent) exactly when
the pattern matches the whole string. -/
def DICE_RE_match (s : String) : Option (Nat × Nat × Nat) :=
  let cs := s.data.dropWhile isPySpace
  match takeDigits cs with
  | none => none
  | some (x, cs1) =>
    match cs1 with
    | [] => none
    | c :: cs2 =>
      if c = 'd' ∨ c = 'D' then
        match takeDigits cs2 with
        | none => none
        | some (y, cs3) =>
          match cs3 with
          | '+' :: cs4 =>
            (match takeDigits cs4 with
             | none => none
             | some (z, cs5) =>
               if (cs5.dropWhile isPySpace).isEmpty then some (x, y, z) else none)
          | rest =>
            if (rest.dropWhile isPySpace).isEmpty then some (x, y, 0) else none
      else none

/-- `DiceRoller.roll`: the randomness of `random.randint(1, y)` is supplied as
the stream `randoms`; the command sends an error message and rolls nothing when
the pattern does not match or the bounds are violated, else reports
`sum(rolls) + z` with `rolls` the first `x` stream values. -/
def roll (nota : String) (randoms : List Nat) : Except String (Nat × List Nat) :=
  match DICE_RE_match nota with
  | none => .error "Use format `XdY` or `XdY+Z`, e.g. `2d6+1`."
  | some (x, y, z) =>
    if x ≤ 0 ∨ y ≤ 0 ∨ 100 < x ∨ 1000 < y then .error "Dice out of bounds."
    else
      let rolls := randoms.take x
      .ok (rolls.sum + z, rolls)

/-! ## GuildPlayer state (`src/music.py`) -/

/-- The slice of `discord.VoiceClient` the player reads: connection status,
playback status and the channel's member list (`true` = bot member). -/
structure Voice where
  connected : Bool := true
  playing : Bool := false
  paused : Bool := false
  memberIsBot : List Bool := []
deriving Repr, DecidableEq

/-- The mutable fields of `GuildPlayer` that the verified operations touch
(initial values as in `GuildPlayer.__init__`).  Clock fields are integers;
`temp_cookie_path` stands for `_temp_cookie_path`. -/
structure GuildPlayerState where
  queue : List Track := []
  current : Option Track := none
  stopped : Bool := false
  voice : Option Voice := none
  start_time_utc : Option Int := none
  history : List Track := []
  history_index : Int := -1
  repeat_mode : String := "off"
  navigating_history : Bool := false
  seq_counter : Nat := 0
  idle_started_mono : Option Int := none
  last_activity_mono : Int := 0
  temp_cookie_path : Option String := none
deriving Repr, DecidableEq

/-- `bool(self.voice and self.voice.is_connected())`. -/
def voice_connected (s : GuildPlayerState) : Bool :=
  match s.voice with
  | some v => v.connected
  | none => false

/-- `bool(self.voice and self.voice.is_playing())`. -/
def voice_playing (s : GuildPlayerState) : Bool :=
  match s.voice with
  | some v => v.playing
  | none => false

/-- `bool(self.voice and self.voice.is_paused())`. -/
def voice_paused (s : GuildPlayerState) : Bool :=
  match s.voice with
  | some v => v.paused
  | none => false

/-- `GuildPlayer._has_humans`: `False` without a voice channel, else whether a
non-bot member is present. -/
def has_humans (s : GuildPlayerState) : Bool :=
  match s.voice with
  | none => false
  | some v => v.memberIsBot.any (fun isBot => !isBot)

/-- `voice.stop()`: the transport stops playing (and is no longer paused). -/
def voice_stop (s : GuildPlayerState) : GuildPlayerState :=
  { s with voice := s.voice.map (fun v => { v with playing := false, paused := false }) }

/-- `GuildPlayer.skip`: `if self.voice: self.voice.stop()` (the panel update is
I/O and not part of the state). -/
def skip (s : GuildPlayerState) : GuildPlayerState :=
  match s.voice with
  | some _ => voice_stop s
  | none => s

/-- `GuildPlayer._safe_disconnect`: force-disconnect, then clear `voice`,
`current`, the queue and the idle timer, and refresh the activity clock. -/
def safe_disconnect (s : GuildPlayerState) (nowMono : Int) : GuildPlayerState :=
  { s with voice := none, current := none, queue := [],
           idle_started_mono := none, last_activity_mono := nowMono }

/-- `GuildPlayer.stop`: set `_stopped`, stop the transport if any, clear the
queue, and delete the temp cookie file. -/
def stop (s : GuildPlayerState) : GuildPlayerState :=
  let s1 := { s with stopped := true }
  let s2 := match s1.voice with
            | some _ => voice_stop s1
            | none => s1
  { s2 with queue := [], temp_cookie_path := none }

/-! ## History record and navigation -/

/-- `next((i for i, t in enumerate(history) if t.seq == track.seq), None)`. -/
def find_seq_idx : List Track → Option Nat → Option Nat
  | [], _ => none
  | t :: rest, sq =>
    if t.seq = sq then some 0
    else (find_seq_idx rest sq).map (fun n => n + 1)

/-- `GuildPlayer._update_history_for_track` acting on `(history, cursor)`:
move the cursor to an existing entry with the same sequence number, else append
and advance the cursor, dropping the overflow from the front when the length
exceeds 5. -/
def update_history_for_track (hist : List Track) (idx : Int) (track : Option Track) :
    List Track × Int :=
  match track with
  | none => (hist, idx)
  | some tr =>
    match find_seq_idx hist tr.seq with
    | some i => (hist, (i : Int))
    | none =>
      let h2 := hist ++ [tr]
      if 5 < h2.length then
        let overflow := h2.length - 5
        let h3 := h2.drop overflow
        (h3, max 0 ((h3.length : Int) - 1))
      else
        (h2, (h2.length : Int) - 1)

/-- `record` over a whole operation sequence, from the initial empty history
with cursor `-1`. -/
def record_all (ops : List (Option Track)) : List Track × Int :=
  ops.foldl (fun st t => update_history_for_track st.1 st.2 t) ([], -1)

/-- Fallback used to model Python list indexing where the index is known to be
in range. -/
def defaultTrack : Track := {}

/-- `GuildPlayer.play_previous`: no-op on empty history; at cursor `<= 0`
re-queue the current track (if any) at the front and skip; deeper in history,
push the current track (unless its seq is already queued) and then the target
at the queue front, decrement the cursor, and skip. -/
def play_previous (s : GuildPlayerState) : GuildPlayerState :=
  if s.history.isEmpty then s
  else if s.history_index ≤ 0 then
    match s.current with
    | some c => skip { s with queue := c :: s.queue }
    | none => s
  else
    let pointer : Nat := (s.history_index - 1).toNat
    let target := s.history.getD pointer defaultTrack
    let q1 := match s.current with
      | some c => if s.queue.any (fun t => t.seq == c.seq) then s.queue else c :: s.queue
      | none => s.queue
    skip { s with queue := target :: q1, history_index := s.history_index - 1,
                  navigating_history := true }

/-! ## Enqueue -/

/-- The wrapping of a resolved track performed inside `GuildPlayer.enqueue`:
a fresh sequence number and the requester are attached. -/
def wrap_track (t : Track) (n : Nat) (requester : Option Nat) : Track :=
  { seq := some n, title := t.title, stream_url := t.stream_url,
    webpage_url := t.webpage_url, duration := t.duration,
    thumbnail := t.thumbnail, requested_by := requester }

/-- The admission loop of `GuildPlayer.enqueue`: tracks without a stream url
are dropped, the rest get strictly increasing sequence numbers and are appended
to the queue; returns the updated state and the admitted tracks. -/
def enqueue_collect (s : GuildPlayerState) (tracks : List Track)
    (requester : Option Nat) : GuildPlayerState × List Track :=
  tracks.foldl
    (fun acc t =>
      if t.stream_url = "" then acc
      else
        let n := acc.1.seq_counter + 1
        let w := wrap_track t n requester
        ({ acc.1 with seq_counter := n, queue := acc.1.queue ++ [w] }, acc.2 ++ [w]))
    (s, [])

/-- `GuildPlayer.enqueue`: `create_tracks_from_query` runs first (its outcome is
the `resolved` argument); a resolver error is re-raised as `RuntimeError`
before any state is touched, otherwise the admission loop runs and, when
something was admitted, the activity clock is refreshed (the queue event and
loop task are scheduler objects outside the state). -/
def enqueue (s : GuildPlayerState) (resolved : Except String (List Track))
    (requester : Option Nat) (nowMono : Int) :
    Except String (GuildPlayerState × List Track) :=
  match resolved with
  | .error e => .error e
  | .ok tracks =>
    let res := enqueue_collect s tracks requester
    if res.2.isEmpty then .ok res
    else .ok ({ res.1 with last_activity_mono := nowMono }, res.2)

/-- The state after an `enqueue` call observed from outside: a raised error
leaves the player object exactly as it was. -/
def enqueue_run (s : GuildPlayerState) (resolved : Except String (List Track))
    (requester : Option Nat) (nowMono : Int) : GuildPlayerState :=
  match enqueue s resolved requester nowMono with
  | .ok res => res.1
  | .error _ => s

/-! ## Playback loop phases

`GuildPlayer.player_loop` is one coroutine; each stretch between suspension
points is a pure state transformer.  `loop_head` covers the top of an
iteration (alone check, idle check, queue wait, pop, history record, start
timestamp) and `loop_tail` the part after the completion event fires
(cleanup, stop check, repeat policy, post-track UI). -/

/-- What the head of a loop iteration does next: start another iteration
(`cont`) or begin playing the popped track. -/
inductive HeadOutcome where
  | cont : HeadOutcome
  | play : Track → HeadOutcome
deriving Repr, DecidableEq

/-- The head of one `player_loop` iteration.  `arrivals` are the tracks an
`enqueue` call appended while the loop waited on `queue_event` (empty when the
30-second wait timed out). -/
def loop_head (s0 : GuildPlayerState) (nowMono nowUtc : Int)
    (arrivals : List Track) : GuildPlayerState × HeadOutcome :=
  -- Disconnect if alone in voice
  if voice_connected s0 && !(has_humans s0) then
    (safe_disconnect s0 nowMono, .cont)
  else
    -- Idle disconnect tracking (no queue, nothing playing/paused)
    let idleCond := voice_connected s0 && !(voice_playing s0) && !(voice_paused s0)
                      && s0.queue.isEmpty
    let idleStep : GuildPlayerState × Bool :=
      if idleCond then
        match s0.idle_started_mono with
        | none => ({ s0 with idle_started_mono := some nowMono }, false)
        | some t0 =>
          if 300 ≤ nowMono - t0 then
            ({ s0 with voice := none, current := none, idle_started_mono := none }, true)
          else (s0, false)
      else ({ s0 with idle_started_mono := none }, false)
    if idleStep.2 then (idleStep.1, .cont)
    else
      let s1 := idleStep.1
      -- wait on queue_event when the queue is empty; `arrivals` lands in it
      let s2 := if s1.queue.isEmpty then { s1 with queue := arrivals } else s1
      match s2.queue with
      | [] => (s2, .cont)   -- wait_for timed out, re-evaluate from the top
      | t :: rest =>
        let s3 := { s2 with current := some t, queue := rest }
        if !(voice_connected s3) then ({ s3 with current := none }, .cont)
        else
          let s4 := { s3 with last_activity_mono := nowMono }
          -- record history before playback starts
          let hi := update_history_for_track s4.history s4.history_index (some t)
          let s5 := { s4 with history := hi.1, history_index := hi.2,
                              start_time_utc := some nowUtc,
                              -- _on_track_start cancels the idle timer
                              idle_started_mono := none }
          (s5, .play t)

/-- The tail of one `player_loop` iteration, entered when the completion event
fires for the playing track (no explicit stop has any effect other than the
`_stopped` flag and the cleared queue already visible in the state). -/
def loop_tail (s0 : GuildPlayerState) (nowMono : Int) : GuildPlayerState :=
  -- cancel the UI refresher, clear the start timestamp, delete the temp
  -- cookie file, reset the navigation flag, refresh the activity clock
  let s1 := { s0 with start_time_utc := none, temp_cookie_path := none,
                      navigating_history := false, last_activity_mono := nowMono }
  -- if nothing is left to play, drop the current reference
  let s2 := if s1.queue.isEmpty && s1.voice.isSome && !(voice_playing s1)
               && !(voice_paused s1)
            then { s1 with current := none } else s1
  -- _on_track_end -> _start_idle_timer_if_needed: an immediate disconnect when
  -- no humans remain; the other branches only manage the idle timer task
  let s3 := if voice_connected s2 && !(has_humans s2)
            then safe_disconnect s2 nowMono else s2
  if s3.stopped then { s3 with current := none }
  else
    -- repeat logic
    let s4 := if s3.repeat_mode = "one" then
                match s3.current with
                | some c => { s3 with queue := c :: s3.queue }
                | none => s3
              else s3
    let s5 := if s4.queue.isEmpty && s4.repeat_mode = "all" && !s4.history.isEmpty
              then { s4 with queue := s4.queue ++ s4.history } else s4
    -- post-track UI
    if !s5.queue.isEmpty then s5
    else
      -- hold the last track visible for MUSIC_LAST_PLAYED_SECONDS, then clear
      { s5 with current := none }

/-- The track of the C1 failing input. -/
def c1Track : Track := { seq := some 1, title := "A", stream_url := "u",
                         webpage_url := "w", duration := some 200 }

/-- C1 failing input: repeat mode `one`, the only queued track is playing with
an empty queue behind it, a human listener is present, no stop requested. -/
def c1State : GuildPlayerState :=
  { queue := [], current := some c1Track, stopped := false,
    voice := some { connected := true, playing := false, paused := false,
                    memberIsBot := [false] },
    history := [c1Track], history_index := 0, repeat_mode := "one" }

/-! ## Panel rendering (`GuildPlayer._panel_embed`)

The embed is rendered from the player state plus the guild display data and
the wall clock (`datetime.now(timezone.utc)` is read for the embed timestamp
and, through `_progress_bar`, for the progress estimate).  String constants
reproduce the source literals exactly (they are mojibake in the source file). -/

/-- One embed field (`name`, `value`, `inline`). -/
structure EmbedField where
  name : String
  value : String
  inl : Bool
deriving Repr, DecidableEq

/-- The embed content `_panel_embed` produces. -/
structure Embed where
  title : String
  description : String
  color : Nat
  timestamp : Int
  fields : List EmbedField
  thumbnail : Option String
  footer_text : String
  footer_icon : Option String
deriving Repr, DecidableEq

/-- Status line `"... Streaming"` (source literal). -/
def STATUS_STREAMING : String := "‚ñ∂Ô∏è Streaming"

/-- Status line `"... Waiting to resume"` (source literal). -/
def STATUS_PAUSED : String := "‚è∏Ô∏è Waiting to resume"

/-- Status line `"... Standby"` (source literal). -/
def STATUS_STANDBY : String := "üìª Standby"

/-- Status line `"... Awaiting tracks"` (source literal). -/
def STATUS_AWAITING : String := "üí§ Awaiting tracks"

/-- Status line `"... Use **/play** or **.play** to begin"` (source literal). -/
def STATUS_BEGIN : String := "üíø Use **/play** or **.play** to begin"

/-- The separator bullet of the footer and requester lines (source literal). -/
def BULLET : String := "‚Ä¢"

/-- The ellipsis prefix of the queue-overflow line (source literal). -/
def ELLIPSIS : String := "‚Ä¶"

/-- `palette.get(self.repeat_mode, 0x5865F2)`. -/
def palette (mode : String) : Nat :=
  if mode = "off" then 0x5865F2
  else if mode = "one" then 0xFEE75C
  else if mode = "all" then 0x57F287
  else 0x5865F2

/-- `mode_badge.get(self.repeat_mode, self.repeat_mode)` (source literals). -/
def mode_badge (mode : String) : String :=
  if mode = "off" then "üö´ Off"
  else if mode = "one" then "üîÇ Single"
  else if mode = "all" then "üîÅ Queue"
  else mode

/-- `GuildPlayer._panel_embed` as a pure function of the player state, the
guild display data, the logo url and the current time. -/
def panel_embed (s : GuildPlayerState) (guild_name : String)
    (guild_icon : Option String) (bot_logo : Option String) (now : Int) : Embed :=
  let is_connected := voice_connected s
  let is_playing := voice_playing s
  let is_paused := voice_paused s
  let has_track := s.current.isSome
  let status_line :=
    if is_playing then STATUS_STREAMING
    else if is_paused && has_track then STATUS_PAUSED
    else if has_track then STATUS_STANDBY
    else if is_connected then STATUS_AWAITING
    else STATUS_BEGIN
  let playback_lines : List String :=
    match s.current with
    | some c =>
      -- the `elif has_track` branch of the source is unreachable because
      -- `has_track` already means `self.current is not None`
      ["**[" ++ c.title ++ "](" ++ c.webpage_url ++ ")**"]
        ++ (match progress_bar s.current s.start_time_utc now with
            | some prog => ["`" ++ prog ++ "`"]
            | none => [])
        ++ (match c.requested_by with
            | some uid => ["Requested " ++ BULLET ++ " <@" ++ toString uid ++ ">"]
            | none => [])
    | none => ["Queue a song with `/play` or `.play <search>`."]
  let queue_len := s.queue.length
  let upcoming := s.queue.take 5
  let up_next_lines : List String :=
    (upcoming.enum.map (fun p =>
      "`" ++ pad2 (p.1 + 1) ++ "` [" ++ p.2.title ++ "](" ++ p.2.webpage_url ++ ")"))
      ++ (if upcoming.length < queue_len then
            [ELLIPSIS ++ "and " ++ toString (queue_len - upcoming.length)
              ++ " more in queue"]
          else [])
  { title := "DiscBot Music Console"
    description := status_line
    color := palette s.repeat_mode
    timestamp := now
    fields :=
      [⟨"Deck Feed", String.intercalate "\n" playback_lines, false⟩,
       ⟨"Queue Depth", toString queue_len ++ " waiting", true⟩,
       ⟨"Repeat Mode", mode_badge s.repeat_mode, true⟩]
        ++ (if upcoming.isEmpty then []
            else [⟨"Up Next", String.intercalate "\n" up_next_lines, false⟩])
    thumbnail := bot_logo
    footer_text := "Panel " ++ BULLET ++ " " ++ guild_name ++ " " ++ BULLET
                     ++ " Repeat " ++ s.repeat_mode.toUpper
    footer_icon := guild_icon }

/-- A connected-and-empty player used for the C7 counterexample. -/
def c7State : GuildPlayerState :=
  { voice := some { connected := true, playing := false, paused := false,
                    memberIsBot := [false] } }

/-! ## Spotify catalog expansion (`create_tracks_from_query`, album branch) -/

/-- `SPOTIFY_MAX` (default of the `MUSIC_SPOTIFY_MAX` environment knob). -/
def SPOTIFY_MAX : Nat := 100

/-- One catalog entry as consumed by the album loop (just enough of the
Spotify track object to build the search query). -/
structure SpotifyItem where
  artist : String := ""
  name : String := ""
deriving Repr, DecidableEq

/-- `_spotify_page_album_tracks` (page size `limit = 50`): pages through
`entries`, yielding each page and stopping after a page once at least
`SPOTIFY_MAX` items were yielded, after a short page, or on an empty page.
The `sp.album_tracks(..., offset=offset)` call is the slice
`(entries.drop offset).take 50`. -/
def spotify_page_album_tracks (entries : List SpotifyItem)
    (fetched offset : Nat) : List SpotifyItem :=
  let items := (entries.drop offset).take 50
  if hempty : items.isEmpty then []
  else
    let fetched2 := fetched + items.length
    if SPOTIFY_MAX ≤ fetched2 then items
    else if items.length < 50 then items
    else items ++ spotify_page_album_tracks entries fetched2 (offset + items.length)
termination_by entries.length - offset
decreasing_by
  unfold_let items at hempty
  simp only [List.isEmpty_eq_true, List.take_eq_nil_iff, List.drop_eq_nil_iff] at hempty
  push_neg at hempty
  simp only [List.length_take, List.length_drop]
  omega

/-- The album branch of `create_tracks_from_query`: consume the generator,
resolving each entry by a text search (`yt_search_first`, injected as
`search`), and break once `count >= SPOTIFY_MAX`. -/
def album_collect (search : SpotifyItem → Track) :
    List SpotifyItem → Nat → List Track
  | [], _ => []
  | it :: rest, count =>
    let tr := search it
    let count2 := count + 1
    if SPOTIFY_MAX ≤ count2 then [tr]
    else tr :: album_collect search rest count2

/-- The tracks produced for a Spotify album link (composition of the pager and
the capped consumer, both starting from zero). -/
def create_tracks_album (search : SpotifyItem → Track)
    (entries : List SpotifyItem) : List Track :=
  album_collect search (spotify_page_album_tracks entries 0 0) 0

/-- A search stub for the C5 witness (one resolved track per catalog entry). -/
def c5Search (it : SpotifyItem) : Track :=
  { title := it.artist ++ " " ++ it.name, stream_url := "s", webpage_url := "w" }

/-- A 120-entry album for the C5 witness. -/
def c5Entries : List SpotifyItem :=
  (List.range 120).map (fun i => { artist := "a", name := toString i })

/-! ## Concrete inputs used by witnesses and counterexamples -/

/-- A minimal track with a given sequence number. -/
def mkTrack (n : Nat) : Track :=
  { seq := some n, title := toString n, stream_url := "s", webpage_url := "w" }

/-- C4 counterexample input: a track is playing but the history is empty. -/
def c4NoHistState : GuildPlayerState :=
  { current := some (mkTrack 7), voice := some { playing := true } }

/-- C4 witness input: two history entries, cursor at the newest, a third track
playing, empty queue. -/
def c4DeepState : GuildPlayerState :=
  { current := some (mkTrack 3), voice := some { playing := true },
    history := [mkTrack 1, mkTrack 2], history_index := 1 }

/-- C3 witness input: a full history of five distinct tracks. -/
def hist5 : List Track :=
  [mkTrack 1, mkTrack 2, mkTrack 3, mkTrack 4, mkTrack 5]

/-- C8 witness input: connected and playing, but the only channel member is a
bot. -/
def c8State : GuildPlayerState :=
  { queue := [mkTrack 1], current := some (mkTrack 2),
    voice := some { connected := true, playing := true, paused := false,
                    memberIsBot := [true] } }

/-- The history invariant of the spec: bounded length and a cursor that is
`-1` or a valid index. -/
def histInv (p : List Track × Int) : Prop :=
  p.1.length ≤ 5 ∧ -1 ≤ p.2 ∧ p.2 ≤ (p.1.length : Int) - 1

/-!
# Theorems
-/

/-! ### Helper lemmas -/

theorem skip_queue (s : GuildPlayerState) : (skip s).queue = s.queue := by
  unfold skip voice_stop; cases s.voice <;> rfl

theorem skip_history (s : GuildPlayerState) : (skip s).history = s.history := by
  unfold skip voice_stop; cases s.voice <;> rfl

theorem skip_history_index (s : GuildPlayerState) :
    (skip s).history_index = s.history_index := by
  unfold skip voice_stop; cases s.voice <;> rfl

theorem find_seq_idx_lt {hist : List Track} {sq : Option Nat} {i : Nat}
    (h : find_seq_idx hist sq = some i) : i < hist.length := by
  induction hist generalizing i with
  | nil => simp [find_seq_idx] at h
  | cons t rest ih =>
    rw [find_seq_idx] at h
    split at h
    · simp only [Option.some_inj] at h
      simp only [List.length_cons]
      omega
    · obtain ⟨j, hj, hji⟩ := Option.map_eq_some'.mp h
      have := ih hj
      simp only [List.length_cons]
      omega

theorem update_history_inv (hist : List Track) (idx : Int) (t : Option Track)
    (h : histInv (hist, idx)) : histInv (update_history_for_track hist idx t) := by
  simp only [histInv] at h ⊢
  obtain ⟨hlen, hlo, hhi⟩ := h
  cases t with
  | none =>
    simp only [update_history_for_track]
    exact ⟨hlen, hlo, hhi⟩
  | some tr =>
    cases hf : find_seq_idx hist tr.seq with
    | some i =>
      have hi := find_seq_idx_lt hf
      simp only [update_history_for_track, hf]
      exact ⟨hlen, by omega, by omega⟩
    | none =>
      simp only [update_history_for_track, hf]
      split
      · rename_i hgt
        simp only [List.length_append, List.length_cons, List.length_nil] at hgt
        refine ⟨?_, ?_, ?_⟩ <;> simp [List.length_drop] <;> omega
      · rename_i hle
        simp only [not_lt, List.length_append, List.length_cons, List.length_nil] at hle
        refine ⟨?_, ?_, ?_⟩ <;> simp <;> omega

theorem record_foldl_inv (ops : List (Option Track)) (p : List Track × Int)
    (h : histInv p) :
    histInv (ops.foldl (fun st t => update_history_for_track st.1 st.2 t) p) := by
  induction ops generalizing p with
  | nil => exact h
  | cons o rest ih =>
    exact ih _ (update_history_inv p.1 p.2 o h)

theorem list_length_le_sum (l : List Nat) (h : ∀ r ∈ l, 1 ≤ r) :
    l.length ≤ l.sum := by
  induction l with
  | nil => simp
  | cons a rest ih =>
    have ha := h a (by simp)
    have hr := ih (fun r hr => h r (by simp [hr]))
    simp only [List.length_cons, List.sum_cons]
    omega

theorem frac_50_200 : progress_frac 50 200 = 1 / 4 := by
  unfold progress_frac
  rw [max_eq_left (by norm_num), min_eq_left (by norm_num)]
  norm_num

theorem filled_50_200 : progress_filled 50 200 18 = 4 := by
  unfold progress_filled
  rw [frac_50_200]
  have hf : ⌊(1 / 4 : ℚ) * ((18 : Nat) : ℚ)⌋ = 4 := by
    apply Int.floor_eq_iff.mpr
    constructor <;> push_cast <;> norm_num
  rw [hf]
  rfl

theorem frac_250_200 : progress_frac 250 200 = 1 := by
  unfold progress_frac
  rw [max_eq_left (by norm_num), min_eq_right (by norm_num)]

theorem filled_250_200 : progress_filled 250 200 18 = 18 := by
  unfold progress_filled
  rw [frac_250_200, one_mul, Int.floor_natCast]
  rfl

theorem frac_200_200 : progress_frac 200 200 = 1 := by
  unfold progress_frac
  rw [show ((200 : Int) : ℚ) / ((200 : Int) : ℚ) = 1 by norm_num]
  rw [max_eq_left (by norm_num), min_eq_right (by norm_num)]

theorem filled_200_200 : progress_filled 200 200 18 = 18 := by
  unfold progress_filled
  rw [frac_200_200, one_mul, Int.floor_natCast]
  rfl

theorem list_sum_le_mul (l : List Nat) (y : Nat) (h : ∀ r ∈ l, r ≤ y) :
    l.sum ≤ l.length * y := by
  induction l with
  | nil => simp
  | cons a rest ih =>
    have ha := h a (by simp)
    have hr := ih (fun r hr => h r (by simp [hr]))
    simp only [List.length_cons, List.sum_cons, Nat.succ_mul]
    omega

/-! ### Claim theorems -/

/-- C1: the claim says that in repeat mode `one` a track that completes
without an explicit stop is re-inserted at the queue head.  The code violates
this at the failing input below (repeat mode `one`, empty queue behind the
playing track, connected voice with a human listener, no stop requested):
`player_loop` clears `self.current` in its "nothing left to play" step before
the repeat logic reads it, so the completion tail leaves the queue empty and
drops the track instead of re-queuing it. -/
theorem repeat_one_bug :
    (loop_tail c1State 1000).queue = [] ∧
    (loop_tail c1State 1000).current = none ∧
    (loop_tail c1State 1000).queue.head? ≠ some c1Track := by
  decide

/-- C2 counterexample: the claim says the elapsed position used by the panel
renderer is clamped into `[0, duration]`.  At elapsed 250 of a 200-second
track the code renders the raw position ("4:10/3:20") whereas the spec's
clamped reading would render "3:20/3:20": the two disagree. -/
theorem progress_clamp_counterexample :
    progress_bar (some scenTrack) (some 0) 250 ≠
      progress_bar_spec_clamped (some scenTrack) (some 0) 250 := by
  have e1 : progress_bar (some scenTrack) (some 0) 250 =
      some (repeatStr BAR_FILLED (progress_filled 250 200 18)
            ++ repeatStr BAR_EMPTY (18 - progress_filled 250 200 18)
            ++ " " ++ fmt_time (some 250) ++ "/" ++ fmt_time (some 200)) := rfl
  have e2 : progress_bar_spec_clamped (some scenTrack) (some 0) 250 =
      some (repeatStr BAR_FILLED (progress_filled 200 200 18)
            ++ repeatStr BAR_EMPTY (18 - progress_filled 200 200 18)
            ++ " " ++ fmt_time (some 200) ++ "/" ++ fmt_time (some 200)) := rfl
  rw [e1, e2, filled_250_200, filled_200_200]
  decide

/-- C2 (amended): the progress-bar ratio is clamped into `[0, 1]` (the
displayed elapsed time string uses the raw, unclamped `now - start`); in the
scenario of a 200-second track at elapsed 50, the ratio is `0.25` and the bar
reads `0:50/3:20` after four filled cells. -/
theorem progress_bar_correct :
    (∀ pos dur : Int, 0 ≤ progress_frac pos dur ∧ progress_frac pos dur ≤ 1) ∧
    progress_frac 50 200 = 1 / 4 ∧
    progress_bar (some scenTrack) (some 0) 50 =
      some (repeatStr BAR_FILLED 4 ++ repeatStr BAR_EMPTY 14 ++ " 0:50/3:20") := by
  refine ⟨fun pos dur => ⟨le_min (le_max_right _ _) zero_le_one, min_le_right _ _⟩,
          frac_50_200, ?_⟩
  have e : progress_bar (some scenTrack) (some 0) 50 =
      some (repeatStr BAR_FILLED (progress_filled 50 200 18)
            ++ repeatStr BAR_EMPTY (18 - progress_filled 50 200 18)
            ++ " " ++ fmt_time (some 50) ++ "/" ++ fmt_time (some 200)) := rfl
  rw [e, filled_50_200]
  decide

/-- C3: after any sequence of history `record` operations starting from the
empty history, the length never exceeds 5 and the cursor is `-1` or a valid
index; moreover, recording a fresh track into a full history drops the oldest
entry (the head of the appended list) and sets the cursor to the last valid
index. -/
theorem history_record_spec :
    (∀ ops : List (Option Track),
      (record_all ops).1.length ≤ 5 ∧
      -1 ≤ (record_all ops).2 ∧
      (record_all ops).2 ≤ ((record_all ops).1.length : Int) - 1) ∧
    (∀ (hist : List Track) (idx : Int) (tr : Track),
      hist.length = 5 → find_seq_idx hist tr.seq = none →
      update_history_for_track hist idx (some tr) = ((hist ++ [tr]).drop 1, 4)) := by
  constructor
  · intro ops
    have h := record_foldl_inv ops ([], -1) (by simp [histInv])
    simpa [histInv, record_all] using h
  · intro hist idx tr hlen hf
    simp only [update_history_for_track, hf]
    rw [if_pos (by simp [hlen])]
    have h6 : (hist ++ [tr]).length = 6 := by simp [hlen]
    rw [h6]
    have h5 : ((hist ++ [tr]).drop 1).length = 5 := by simp [hlen]
    rw [h5]
    norm_num

/-- C6: a resolver error during `enqueue` is surfaced to the caller as an
enqueue failure, no tracks are admitted, and the whole player state — queue,
sequence counter and every other field — is exactly as before the call
(the exception is raised before any mutation). -/
theorem enqueue_error_atomic (s : GuildPlayerState) (e : String)
    (requester : Option Nat) (nowMono : Int) :
    enqueue s (.error e) requester nowMono = .error e ∧
    enqueue_run s (.error e) requester nowMono = s := by
  exact ⟨rfl, rfl⟩

/-- C9: `stop()` always leaves the queue empty and the stop flag set — also
when no voice connection exists, since the `GuildPlayerState` quantified over
includes `voice = none` — while the history list, the history cursor, the
repeat mode and the sequence counter are unchanged. -/
theorem stop_spec (s : GuildPlayerState) :
    (stop s).queue = [] ∧ (stop s).stopped = true ∧
    (stop s).history = s.history ∧
    (stop s).history_index = s.history_index ∧
    (stop s).repeat_mode = s.repeat_mode ∧
    (stop s).seq_counter = s.seq_counter := by
  cases hv : s.voice <;> simp [stop, voice_stop, hv]

/-- C3 witness: recording a sixth, fresh track into a full five-track history
evicts the oldest entry and puts the cursor on the last valid index. -/
theorem history_record_spec_witness :
    update_history_for_track hist5 4 (some (mkTrack 6)) =
      ([mkTrack 2, mkTrack 3, mkTrack 4, mkTrack 5, mkTrack 6], 4) := by
  have h := history_record_spec.2 hist5 4 (mkTrack 6) (by decide) (by decide)
  rw [h]
  decide

/-- C4 counterexample: the claim says previous-track navigation with an empty
history signals "restart current" by re-queuing the current track at the queue
front.  With an empty history and a playing track, `play_previous` returns
without touching the queue: nothing is re-queued. -/
theorem play_previous_counterexample :
    play_previous c4NoHistState = c4NoHistState ∧
    (play_previous c4NoHistState).queue.head? ≠ some (mkTrack 7) := by
  decide

/-- C4 (amended): `play_previous` never changes the history list.  With an
empty history it is a no-op (no restart signal).  At cursor `<= 0` on a
non-empty history it re-queues the current track (if one exists — otherwise it
is a no-op) at the queue front and stops the transport, restarting it.  Deeper
in history it decrements the cursor and puts the target at the queue front
with the current track re-inserted right behind it, unless a track with the
current sequence number is already queued. -/
theorem play_previous_amended (s : GuildPlayerState) :
    (play_previous s).history = s.history ∧
    (s.history = [] → play_previous s = s) ∧
    (s.history ≠ [] → s.history_index ≤ 0 → s.current = none → play_previous s = s) ∧
    (∀ c, s.history ≠ [] → s.history_index ≤ 0 → s.current = some c →
      (play_previous s).queue = c :: s.queue) ∧
    (s.history ≠ [] → 0 < s.history_index →
      (play_previous s).history_index = s.history_index - 1 ∧
      (play_previous s).queue =
        s.history.getD (s.history_index - 1).toNat defaultTrack ::
          (match s.current with
           | some c => if s.queue.any (fun t => t.seq == c.seq) then s.queue
                       else c :: s.queue
           | none => s.queue)) := by
  refine ⟨?_, ?_, ?_, ?_, ?_⟩
  · unfold play_previous
    split_ifs with h1 h2
    · rfl
    · cases s.current <;> simp [skip_history]
    · simp [skip_history]
  · intro h
    simp [play_previous, h]
  · intro hne hle hcur
    have h1 : s.history.isEmpty = false := by
      simpa [List.isEmpty_iff] using hne
    simp [play_previous, h1, hle, hcur]
  · intro c hne hle hcur
    have h1 : s.history.isEmpty = false := by
      simpa [List.isEmpty_iff] using hne
    simp [play_previous, h1, hle, hcur, skip_queue]
  · intro hne hpos
    have h1 : s.history.isEmpty = false := by
      simpa [List.isEmpty_iff] using hne
    have hle : ¬(s.history_index ≤ 0) := by omega
    constructor
    · simp [play_previous, h1, hle, skip_history_index]
    · cases hc : s.current with
      | none => simp [play_previous, h1, hle, hc, skip_queue]
      | some c => simp [play_previous, h1, hle, hc, skip_queue]

/-- C4 witness: from two history entries with the cursor on the newest and a
third track playing over an empty queue, `play_previous` moves the cursor to 0
and queues the target followed by the current track. -/
theorem play_previous_amended_witness :
    (play_previous c4DeepState).history_index = 0 ∧
    (play_previous c4DeepState).queue = [mkTrack 1, mkTrack 3] := by
  obtain ⟨-, -, -, -, hdeep⟩ := play_previous_amended c4DeepState
  obtain ⟨hidx, hq⟩ := hdeep (by decide) (by decide)
  constructor
  · rw [hidx]; decide
  · rw [hq]; decide

/-- C8: whenever the loop head starts an iteration with a connected voice
client whose channel holds no human member, the player disconnects at once
(`safe_disconnect`): the voice handle, the current track and the queue are all
cleared and the outcome is `cont`, so the iteration never reaches the
queue check or pops a track. -/
theorem alone_disconnect_spec (s : GuildPlayerState) (nowMono nowUtc : Int)
    (arrivals : List Track)
    (hc : voice_connected s = true) (hh : has_humans s = false) :
    loop_head s nowMono nowUtc arrivals = (safe_disconnect s nowMono, .cont) ∧
    (safe_disconnect s nowMono).voice = none ∧
    (safe_disconnect s nowMono).current = none ∧
    (safe_disconnect s nowMono).queue = [] := by
  refine ⟨?_, rfl, rfl, rfl⟩
  unfold loop_head
  rw [hc, hh]
  rfl

/-- C8 witness: a playing, connected player whose channel contains only a bot
is torn down by the next loop-head step. -/
theorem alone_disconnect_spec_witness :
    loop_head c8State 0 0 [] = (safe_disconnect c8State 0, .cont) ∧
    (safe_disconnect c8State 0).voice = none ∧
    (safe_disconnect c8State 0).current = none ∧
    (safe_disconnect c8State 0).queue = [] :=
  alone_disconnect_spec c8State 0 0 [] (by decide) (by decide)

/-- C10: a notation the pattern accepts with `1 <= X <= 100`, `1 <= Y <= 1000`
and die values in `[1, Y]` reports total `sum(rolls) + Z` with
`X + Z <= total <= X*Y + Z`; a notation that fails the pattern or the bounds
is rejected with an error message and no dice are rolled. -/
theorem roll_spec :
    (∀ (nota : String) (randoms : List Nat) (x y z : Nat),
      DICE_RE_match nota = some (x, y, z) →
      1 ≤ x → x ≤ 100 → 1 ≤ y → y ≤ 1000 → x ≤ randoms.length →
      (∀ r ∈ randoms.take x, 1 ≤ r ∧ r ≤ y) →
      roll nota randoms = .ok ((randoms.take x).sum + z, randoms.take x) ∧
      x + z ≤ (randoms.take x).sum + z ∧
      (randoms.take x).sum + z ≤ x * y + z) ∧
    (∀ (nota : String) (randoms : List Nat),
      DICE_RE_match nota = none →
      roll nota randoms = .error "Use format `XdY` or `XdY+Z`, e.g. `2d6+1`.") ∧
    (∀ (nota : String) (randoms : List Nat) (x y z : Nat),
      DICE_RE_match nota = some (x, y, z) →
      (x = 0 ∨ y = 0 ∨ 100 < x ∨ 1000 < y) →
      roll nota randoms = .error "Dice out of bounds.") := by
  refine ⟨?_, ?_, ?_⟩
  · intro nota randoms x y z hp hx1 hx2 hy1 hy2 hlen hvals
    have hlen2 : (randoms.take x).length = x := by
      rw [List.length_take]; omega
    refine ⟨?_, ?_, ?_⟩
    · simp only [roll, hp]
      have hcond : ¬(x ≤ 0 ∨ y ≤ 0 ∨ 100 < x ∨ 1000 < y) := by
        push_neg
        refine ⟨by omega, by omega, by omega, by omega⟩
      rw [if_neg hcond]
    · have h := list_length_le_sum (randoms.take x) (fun r hr => (hvals r hr).1)
      omega
    · have h := list_sum_le_mul (randoms.take x) y (fun r hr => (hvals r hr).2)
      rw [hlen2] at h
      omega
  · intro nota randoms hp
    simp only [roll, hp]
  · intro nota randoms x y z hp hbad
    simp only [roll, hp]
    have hcond : x ≤ 0 ∨ y ≤ 0 ∨ 100 < x ∨ 1000 < y := by
      rcases hbad with h | h | h | h
      · exact Or.inl (by omega)
      · exact Or.inr (Or.inl (by omega))
      · exact Or.inr (Or.inr (Or.inl h))
      · exact Or.inr (Or.inr (Or.inr h))
    rw [if_pos hcond]

/-- C10 witness: `2d6+3` with die values 4 and 5 reports 12, inside
`[2+3, 2*6+3]`. -/
theorem roll_spec_witness :
    roll "2d6+3" [4, 5] = .ok (12, [4, 5]) ∧ 2 + 3 ≤ 12 ∧ 12 ≤ 2 * 6 + 3 := by
  have h := roll_spec.1 "2d6+3" [4, 5] 2 6 3 (by decide) (by decide) (by decide)
    (by decide) (by decide) (by decide) (by decide)
  refine ⟨?_, by norm_num, by norm_num⟩
  rw [h.1]
  rfl

/-- C7 counterexample: the claim says two render invocations on identical
player state produce identical embed content.  `_panel_embed` reads the wall
clock (embed timestamp, progress estimate), so the same state rendered at two
different instants yields different content. -/
theorem panel_embed_time_counterexample :
    panel_embed c7State "g" none none 0 ≠ panel_embed c7State "g" none none 1 := by
  decide

/-- C7 (amended): `_panel_embed` is a pure function of the player state and
the current wall-clock instant — it mutates nothing and two invocations at the
same state and instant agree — and it derives the documented content: the
status line is one of a fixed five-element set, the Queue Depth field reports
exactly the queue length, the Up Next field exists exactly when the queue is
non-empty, and the embed timestamp is the render instant. -/
theorem panel_embed_pure_derived :
    (∀ (s : GuildPlayerState) (gn : String) (gi bl : Option String) (now : Int),
      (panel_embed s gn gi bl now).description ∈
        [STATUS_STREAMING, STATUS_PAUSED, STATUS_STANDBY, STATUS_AWAITING,
         STATUS_BEGIN]) ∧
    (∀ (s : GuildPlayerState) (gn : String) (gi bl : Option String) (now : Int),
      (panel_embed s gn gi bl now).fields.get? 1 =
        some ⟨"Queue Depth", toString s.queue.length ++ " waiting", true⟩) ∧
    (∀ (s : GuildPlayerState) (gn : String) (gi bl : Option String) (now : Int),
      (panel_embed s gn gi bl now).fields.length =
        if s.queue.isEmpty then 3 else 4) ∧
    (∀ (s : GuildPlayerState) (gn : String) (gi bl : Option String) (now : Int),
      (panel_embed s gn gi bl now).timestamp = now) := by
  refine ⟨?_, ?_, ?_, ?_⟩
  · intro s gn gi bl now
    simp only [panel_embed]
    split_ifs <;> simp
  · intro s gn gi bl now
    rfl
  · intro s gn gi bl now
    cases hq : s.queue <;> simp [panel_embed, hq]
  · intro s gn gi bl now
    rfl


theorem page_unfold (entries : List SpotifyItem) (fetched offset : Nat) :
    spotify_page_album_tracks entries fetched offset =
      (let items := (entries.drop offset).take 50
       if items.isEmpty then []
       else
         let fetched2 := fetched + items.length
         if SPOTIFY_MAX ≤ fetched2 then items
         else if items.length < 50 then items
         else items ++ spotify_page_album_tracks entries fetched2 (offset + items.length)) := by
  rw [spotify_page_album_tracks.eq_def]
  simp only [dite_eq_ite]

theorem spotify_page_eq (entries : List SpotifyItem) :
    spotify_page_album_tracks entries 0 0 = entries.take 100 := by
  rw [page_unfold]
  simp only [List.drop_zero, Nat.zero_add]
  by_cases h0 : (entries.take 50).isEmpty
  · rw [if_pos h0]
    have he : entries = [] := by
      rcases (List.take_eq_nil_iff).mp (List.isEmpty_iff.mp h0) with h | h
      · exact absurd h (by norm_num)
      · exact h
    simp [he]
  · rw [if_neg h0]
    by_cases hmax : SPOTIFY_MAX ≤ (entries.take 50).length
    · exfalso
      rw [List.length_take] at hmax
      simp only [SPOTIFY_MAX] at hmax
      omega
    · rw [if_neg hmax]
      by_cases hshort : (entries.take 50).length < 50
      · rw [if_pos hshort]
        have hl : entries.length < 50 := by
          simp [List.length_take] at hshort
          omega
        rw [List.take_of_length_le (by omega), List.take_of_length_le (by omega)]
      · rw [if_neg hshort]
        have hl : 50 ≤ entries.length := by
          simp [List.length_take] at hshort
          omega
        have hlen50 : (entries.take 50).length = 50 := by
          simp [List.length_take]
          omega
        rw [hlen50]
        rw [page_unfold]
        by_cases h20 : ((entries.drop 50).take 50).isEmpty
        · rw [if_pos h20]
          have hl2 : entries.length ≤ 50 := by
            rcases (List.take_eq_nil_iff).mp (List.isEmpty_iff.mp h20) with h | h
            · exact absurd h (by norm_num)
            · have hlen := congrArg List.length h
              simp only [List.length_drop, List.length_nil] at hlen
              omega
          rw [List.append_nil]
          rw [List.take_of_length_le hl2, List.take_of_length_le (by omega)]
        · rw [if_neg h20]
          by_cases hmax2 : SPOTIFY_MAX ≤ 50 + ((entries.drop 50).take 50).length
          · rw [if_pos hmax2]
            rw [show (100 : Nat) = 50 + 50 from rfl, List.take_add]
          · rw [if_neg hmax2]
            by_cases hshort2 : ((entries.drop 50).take 50).length < 50
            · rw [if_pos hshort2]
              rw [show (100 : Nat) = 50 + 50 from rfl, List.take_add]
            · exfalso
              simp [SPOTIFY_MAX, List.length_take, List.length_drop] at hmax2 hshort2
              omega

theorem album_collect_eq (search : SpotifyItem → Track) :
    ∀ (l : List SpotifyItem) (count : Nat), count < SPOTIFY_MAX →
      album_collect search l count = (l.take (SPOTIFY_MAX - count)).map search := by
  intro l
  induction l with
  | nil => intro count h; simp [album_collect]
  | cons it rest ih =>
    intro count h
    rw [album_collect]
    by_cases hc : SPOTIFY_MAX ≤ count + 1
    · rw [if_pos hc]
      have : SPOTIFY_MAX - count = 1 := by omega
      simp [this]
    · rw [if_neg hc]
      rw [ih (count + 1) (by omega)]
      have : SPOTIFY_MAX - count = (SPOTIFY_MAX - (count + 1)) + 1 := by omega
      rw [this]
      simp [List.take_succ_cons]


/-- C5: when the Spotify album resolver returns more entries than the cap
(`SPOTIFY_MAX = 100`), exactly the first 100 entries are admitted — each
re-resolved through the injected text search — and the remainder is dropped
with no error raised (the function totalizes to a plain list). -/
theorem spotify_album_cap (search : SpotifyItem → Track) (entries : List SpotifyItem)
    (h : SPOTIFY_MAX < entries.length) :
    create_tracks_album search entries = (entries.take SPOTIFY_MAX).map search ∧
    (create_tracks_album search entries).length = SPOTIFY_MAX := by
  have he : create_tracks_album search entries = (entries.take SPOTIFY_MAX).map search := by
    unfold create_tracks_album
    rw [spotify_page_eq, album_collect_eq search _ 0 (by norm_num [SPOTIFY_MAX])]
    simp [SPOTIFY_MAX, List.take_take]
  refine ⟨he, ?_⟩
  rw [he]
  simp only [List.length_map, List.length_take]
  omega

/-- C5 witness: a 120-entry album yields exactly 100 admitted tracks. -/
theorem spotify_album_cap_witness :
    (create_tracks_album c5Search c5Entries).length = SPOTIFY_MAX :=
  (spotify_album_cap c5Search c5Entries (by simp [c5Entries, SPOTIFY_MAX])).2

end DiscBot
